import Mathlib

/-
Verification of the multi-source contact enrichment pipeline of
streamlit_app.py: provider health check, People-Search mapping,
Email-Finder and Company-Enrichment stages, and result formatting.

Modelling conventions:
  - JSON objects returned by providers are structures whose fields are all
    Option-typed: none models an absent key, mirroring dict.get access.
  - Network effects are oracles passed in as values or functions: the value a
    provider call returns after the error handling of the adapter (none for
    the exception / non-200 branches, which the adapters collapse to a
    default before any caller sees them).
  - Python truthiness tests on strings, lists and dicts are modelled by the
    corresponding emptiness tests.
-/

namespace ContactFinder

/-- Search criteria for one invocation: the sidebar inputs selected_city,
selected_roles, selected_skills and max_results. -/
structure SearchCriteria where
  city : String
  jobTitles : List String
  skills : List String
  resultLimit : Nat
deriving DecidableEq

/-- Python str.lower on one character (ASCII). -/
def pyLowerChar (c : Char) : Char :=
  if 65 ≤ c.toNat ∧ c.toNat ≤ 90 then Char.ofNat (c.toNat + 32) else c

/-- Python str.lower (ASCII): lower-case every character. -/
def pyLower (s : String) : String :=
  String.mk (s.data.map pyLowerChar)

/-- Python str.replace for a single-character needle: every occurrence of
pat is replaced by rep. -/
def pyReplace (s : String) (pat : Char) (rep : String) : String :=
  String.mk (s.data.flatMap (fun c => if c = pat then rep.data else [c]))

/-- Python str.strip with no argument: drop leading and trailing
whitespace. -/
def pyStrip (s : String) : String :=
  String.mk
    (((s.data.dropWhile Char.isWhitespace).reverse.dropWhile Char.isWhitespace).reverse)

/-- Helper for pySplit: walk the characters, accumulating the current token
reversed. -/
def pySplitAux : List Char → List Char → List String
  | [], acc => if acc.isEmpty then [] else [String.mk acc.reverse]
  | c :: rest, acc =>
    if c.isWhitespace then
      if acc.isEmpty then pySplitAux rest []
      else String.mk acc.reverse :: pySplitAux rest []
    else pySplitAux rest (c :: acc)

/-- Python str.split with no separator: split on runs of whitespace,
producing no empty tokens. -/
def pySplit (s : String) : List String :=
  pySplitAux s.data []

/-- The organization sub-object of an Apollo person record. -/
structure Organization where
  name : Option String := none
deriving DecidableEq

/-- One entry of the phone_numbers list of an Apollo person record. -/
structure PhoneEntry where
  raw_number : Option String := none
deriving DecidableEq

/-- One person object of the Apollo search response; every field is optional
(none models an absent key), mirroring the duck-typed dict access of the
source. -/
structure Person where
  first_name : Option String := none
  last_name : Option String := none
  title : Option String := none
  organization : Option Organization := none
  city : Option String := none
  linkedin_url : Option String := none
  email : Option String := none
  phone_numbers : Option (List PhoneEntry) := none
deriving DecidableEq

/-- RawContact: the dict built by the search step. The search step always
stores the keys name, title, company, location, linkedin_url, email, phone
and source (possibly as empty strings), so these are plain fields here;
company_size and company_industry are only added by the Company-Enrichment
step, so they are Option with none modelling the absent key. -/
structure Contact where
  name : String
  title : String
  company : String
  location : String
  linkedin_url : String
  email : String
  phone : String
  source : String
  company_size : Option String := none
  company_industry : Option String := none
deriving DecidableEq

/-- Phone extraction of the search step: the raw_number of the first entry of
phone_numbers when that list is present and non-empty (truthy), else the
empty string. -/
def personPhone (p : Person) : String :=
  match p.phone_numbers with
  | some (e :: _) => e.raw_number.getD ""
  | _ => ""

/-- The person-to-contact mapping of the search step. Every absent field
defaults via dict.get: first/last name, title, organization name,
linkedin_url and email default to the empty string; city defaults to the
selected city of the search. source is initialised to the Apollo marker. -/
def personToContact (selectedCity : String) (p : Person) : Contact :=
  { name := pyStrip (p.first_name.getD "" ++ " " ++ p.last_name.getD "")
    title := p.title.getD ""
    company := ((p.organization.getD { name := none }).name).getD ""
    location := p.city.getD selectedCity
    linkedin_url := p.linkedin_url.getD ""
    email := p.email.getD ""
    phone := personPhone p
    source := "Apollo.io" }

/-- search_professionals_apollo: requires the Apollo key, issues one request
whose payload carries page_size = limit, and returns the people list of a
200 response unchanged; resp none models a non-200 status or an exception,
both of which the adapter collapses to the empty list. The limit shapes the
request only; the returned list is never truncated by the adapter. -/
def search_professionals_apollo (apolloKeyPresent : Bool) (limit : Nat)
    (resp : Option (List Person)) : List Person :=
  if apolloKeyPresent then
    match resp with
    | some people => people
    | none => []
  else []

/-- The data object of a Hunter email-finder response; confidence and email
are both optional. -/
structure EmailData where
  confidence : Option Nat := none
  email : Option String := none
deriving DecidableEq

/-- find_email_hunter: requires the Hunter key; resp none models a non-200
status or an exception. On a 200 response the email is returned only when
the confidence field is present, truthy (non-zero) and strictly greater
than 50; otherwise the adapter returns none. -/
def find_email_hunter (hunterKeyPresent : Bool) (resp : Option EmailData) :
    Option String :=
  if hunterKeyPresent then
    match resp with
    | some d =>
      match d.confidence with
      | some c => if c ≠ 0 then (if c > 50 then d.email else none) else none
      | none => none
    | none => none
  else none

/-- The domain guess of the Hunter enhancement step: lower-case the company
name, strip spaces, append .com. -/
def companyDomain (company : String) : String :=
  pyReplace (pyLower company) ' ' "" ++ ".com"

/-- One contact passing through the Hunter enhancement loop. findEmail is
the oracle for api_manager.find_email_hunter at a (first, last, domain)
query. The contact is modified only when its email is empty, its company
non-empty, its name splits into at least two tokens, and the oracle returns
a truthy (non-empty) email; then email is set and the Hunter marker is
appended to source. -/
def enhanceContact (findEmail : String → String → String → Option String)
    (c : Contact) : Contact :=
  if c.email = "" ∧ c.company ≠ "" then
    if 2 ≤ (pySplit c.name).length then
      match findEmail ((pySplit c.name).headD "") ((pySplit c.name).getLastD "")
          (companyDomain c.company) with
      | some e =>
        if e ≠ "" then { c with email := e, source := c.source ++ " + Hunter.io" }
        else c
      | none => c
    else c
  else c

/-- Step 2 of the pipeline: guarded by Hunter availability and a non-empty
contact list, then every contact passes through the enhancement loop. -/
def step2 (hunterAvailable : Bool)
    (findEmail : String → String → String → Option String)
    (contacts : List Contact) : List Contact :=
  if hunterAvailable && !contacts.isEmpty then contacts.map (enhanceContact findEmail)
  else contacts

/-- The metrics sub-object of a Clearbit response. -/
structure Metrics where
  employees : Option String := none
deriving DecidableEq

/-- The category sub-object of a Clearbit response. -/
structure Category where
  industry : Option String := none
deriving DecidableEq

/-- A Clearbit company response; at the call site none models the falsy
empty dict that enrich_company_clearbit returns on a missing key, a non-200
status or an exception. -/
structure CompanyData where
  metrics : Option Metrics := none
  category : Option Category := none
deriving DecidableEq

/-- One contact passing through the Clearbit enrichment loop. enrich is the
oracle for api_manager.enrich_company_clearbit. Only contacts with a truthy
(non-empty) company are looked up; on a truthy response the company_size and
company_industry keys are added (defaulting to the empty string when the
nested fields are absent); source is never touched. -/
def enrichContact (enrich : String → Option CompanyData) (c : Contact) : Contact :=
  if c.company ≠ "" then
    match enrich c.company with
    | some d =>
      { c with
        company_size := some (((d.metrics.getD { employees := none }).employees).getD "")
        company_industry := some (((d.category.getD { industry := none }).industry).getD "") }
    | none => c
  else c

/-- Step 3 of the pipeline: guarded by Clearbit availability and a non-empty
contact list, then every contact passes through the enrichment loop. -/
def step3 (clearbitAvailable : Bool) (enrich : String → Option CompanyData)
    (contacts : List Contact) : List Contact :=
  if clearbitAvailable && !contacts.isEmpty then contacts.map (enrichContact enrich)
  else contacts

/-- The availability map computed once per search by the health check and
read by the pipeline guards. -/
structure ApiStatus where
  hunter : Bool
  apollo : Bool
  clearbit : Bool
deriving DecidableEq

/-- Step 1 of the pipeline: guarded by Apollo availability; every person of
the search return is mapped into a contact, with no truncation. -/
def step1 (apolloAvailable : Bool) (selectedCity : String)
    (searchReturn : List Person) : List Contact :=
  if apolloAvailable then searchReturn.map (personToContact selectedCity) else []

/-- The whole enrichment pipeline: search, then Hunter enhancement, then
Clearbit enrichment, in that fixed order. searchReturn is the list
search_professionals_apollo returned. -/
def pipeline (status : ApiStatus) (selectedCity : String)
    (searchReturn : List Person)
    (findEmail : String → String → String → Option String)
    (enrich : String → Option CompanyData) : List Contact :=
  step3 status.clearbit enrich
    (step2 status.hunter findEmail
      (step1 status.apollo selectedCity searchReturn))

/-- The (first, last, domain) query the Hunter enhancement loop issues for
one contact, if any: instrumentation for the no-calls claims. -/
def hunterCallFor (c : Contact) : List (String × String × String) :=
  if c.email = "" ∧ c.company ≠ "" then
    if 2 ≤ (pySplit c.name).length then
      [((pySplit c.name).headD "", (pySplit c.name).getLastD "",
        companyDomain c.company)]
    else []
  else []

/-- All Hunter queries Step 2 issues over a contact list. -/
def step2Calls (hunterAvailable : Bool) (contacts : List Contact) :
    List (String × String × String) :=
  if hunterAvailable && !contacts.isEmpty then (contacts.map hunterCallFor).flatten
  else []

/-- All Clearbit lookups Step 3 issues over a contact list. -/
def step3Calls (clearbitAvailable : Bool) (contacts : List Contact) : List String :=
  if clearbitAvailable && !contacts.isEmpty then
    (contacts.map (fun c => if c.company ≠ "" then [c.company] else [])).flatten
  else []

/-- One row of the fixed output schema built by the formatting step. -/
structure FormattedRow where
  date : String
  srNo : Nat
  city : String
  linkedin : String
  name : String
  phone : String
  email : String
  company : String
  source : String
deriving DecidableEq

/-- The search-results URL the formatting step supplies as the dict.get
default for the LinkedIn column: the contact name with each space encoded
as %20. -/
def linkedinSearchFallback (name : String) : String :=
  "https://linkedin.com/search/results/people/?keywords=" ++ pyReplace name ' ' "%20"

/-- One formatted row. Every contact reaching the formatter was built by the
search step, which stores all the core keys (possibly as empty strings), so
each dict.get here finds the stored value and its default — the synthesized
search URL for linkedin_url, the string Not Available for phone and email,
the string API for source — is unreachable. -/
def mkRow (today selectedCity : String) (srNo : Nat) (c : Contact) : FormattedRow :=
  { date := today
    srNo := srNo
    city := selectedCity
    linkedin := c.linkedin_url
    name := c.name
    phone := c.phone
    email := c.email
    company := c.company
    source := c.source }

/-- The formatting loop: one row per contact, numbered from 1 in input
order. -/
def formatContacts (today selectedCity : String) (contacts : List Contact) :
    List FormattedRow :=
  contacts.enum.map (fun ic => mkRow today selectedCity (ic.1 + 1) ic.2)

/-- The emails-found metric: the number of rows whose email column differs
from the placeholder string Not Available. -/
def emailsFound (rows : List FormattedRow) : Nat :=
  (rows.filter (fun r => r.email ≠ "Not Available")).length

/-- The credentials read from the environment at startup. -/
structure Credentials where
  hunter_api_key : Option String := none
  apollo_api_key : Option String := none
  clearbit_api_key : Option String := none
deriving DecidableEq

/-- Outcome of one probe request: fail covers transport errors and timeouts
(the except branch); status carries the HTTP status code. -/
inductive ProbeOutcome where
  | fail : ProbeOutcome
  | status : Nat → ProbeOutcome
deriving DecidableEq

/-- Outcomes the three probe requests would have, were they issued. -/
structure ProbeOutcomes where
  hunter : ProbeOutcome
  apollo : ProbeOutcome
  clearbit : ProbeOutcome
deriving DecidableEq

/-- Availability derived from one probe outcome: exactly a 200 status. -/
def probeAvailable : ProbeOutcome → Bool
  | ProbeOutcome.fail => false
  | ProbeOutcome.status code => code == 200

/-- test_api_connections: for each provider, a missing credential gives
availability false with no probe issued; otherwise the probe outcome decides
availability, with every failure absorbed. The second component records
which probes were issued (hunter, apollo, clearbit), instrumenting the
no-network-call claims. The function is total: the returned map always
carries all three providers. -/
def test_api_connections (creds : Credentials) (probes : ProbeOutcomes) :
    ApiStatus × (Bool × Bool × Bool) :=
  ({ hunter :=
      match creds.hunter_api_key with
      | some _ => probeAvailable probes.hunter
      | none => false
     apollo :=
      match creds.apollo_api_key with
      | some _ => probeAvailable probes.apollo
      | none => false
     clearbit :=
      match creds.clearbit_api_key with
      | some _ => probeAvailable probes.clearbit
      | none => false },
   (creds.hunter_api_key.isSome, creds.apollo_api_key.isSome,
    creds.clearbit_api_key.isSome))

/-- Modelled from the spec: the source under src/ contains no
SyntheticContactGenerator (the single source file has no synthetic or demo
path); section 4.3 of the spec specifies a generator drawing names and
companies from fixed pools, synthesizing a phone number, an email derived
from the chosen name and company, and a LinkedIn URL from a slugified name
with a disambiguating suffix, with source the single literal synthetic.
Random choice with replacement is modelled by a seed index into the
pools. -/
def syntheticNamePool : List String :=
  ["Rajesh Kumar", "Priya Sharma", "Amit Patel", "Sneha Reddy", "Vikram Singh"]

/-- Modelled from the spec: the fixed company pool of the synthetic
generator. -/
def syntheticCompanyPool : List String :=
  ["TCS", "Infosys", "Wipro", "HCL Technologies", "Tech Mahindra"]

/-- Modelled from the spec: one synthetic record, fields derived
deterministically from the pool choice index. -/
def syntheticContact (criteria : SearchCriteria) (i : Nat) : Contact :=
  let name := syntheticNamePool.getD (i % syntheticNamePool.length) ""
  let company := syntheticCompanyPool.getD (i % syntheticCompanyPool.length) ""
  { name := name
    title := criteria.jobTitles.headD "Data Scientist"
    company := company
    location := criteria.city
    linkedin_url := "https://linkedin.com/in/" ++ pyReplace (pyLower name) ' ' "-"
        ++ "-" ++ toString (i % 1000)
    email := pyReplace (pyLower name) ' ' "." ++ "@"
        ++ pyReplace (pyLower company) ' ' "" ++ ".com"
    phone := "+91 9" ++ toString (100000000 + i % 900000000)
    source := "synthetic" }

/-- Modelled from the spec: generate produces count records drawn from the
pools; it depends on no network or credential and always succeeds. seed
models the random draw. -/
def generate (criteria : SearchCriteria) (count : Nat) (seed : Nat) :
    List Contact :=
  (List.range count).map (fun i => syntheticContact criteria (seed + i))

/-- Concrete search criteria used by the closed instantiations below. -/
def demoCriteria : SearchCriteria :=
  { city := "Pune", jobTitles := ["Data Engineer"], skills := ["Python"],
    resultLimit := 1 }

/-- A person object with a name and organization but no linkedin_url, email,
phone or city field. -/
def personAsha : Person :=
  { first_name := some "Asha", last_name := some "Rao",
    title := some "Data Engineer",
    organization := some { name := some "Acme" } }

/-- A second person object, for the over-limit scenario. -/
def personRavi : Person :=
  { first_name := some "Ravi", last_name := some "Iyer",
    organization := some { name := some "Beta" } }

/-- Availability map with only Apollo up. -/
def statusApolloOnly : ApiStatus :=
  { hunter := false, apollo := true, clearbit := false }

/-- Hunter oracle that never finds an email. -/
def noFindEmail : String → String → String → Option String := fun _ _ _ => none

/-- Clearbit oracle that never returns data. -/
def noEnrich : String → Option CompanyData := fun _ => none

theorem step2_length (b : Bool) (f : String → String → String → Option String)
    (l : List Contact) : (step2 b f l).length = l.length := by
  unfold step2; split <;> simp

theorem step3_length (b : Bool) (e : String → Option CompanyData)
    (l : List Contact) : (step3 b e l).length = l.length := by
  unfold step3; split <;> simp

/-- C1: the claim fails on the code. With resultLimit 1 and a search stage
returning two person objects (at least one), the pipeline yields two
RawContacts, not one: the search step maps every returned person and never
truncates to the requested limit. -/
theorem c1_counterexample :
    demoCriteria.resultLimit = 1 ∧
    demoCriteria.resultLimit ≤ ([personAsha, personRavi] : List Person).length ∧
    (pipeline statusApolloOnly demoCriteria.city [personAsha, personRavi]
        noFindEmail noEnrich).length ≠ demoCriteria.resultLimit := by
  decide

/-- C1 (amended): the pipeline yields exactly one RawContact per person
object the search stage returns — no truncation — so it yields exactly N
RawContacts precisely when the stage returns exactly N items. -/
theorem c1_length_eq_search_return (criteria : SearchCriteria)
    (status : ApiStatus) (results : List Person)
    (findEmail : String → String → String → Option String)
    (enrich : String → Option CompanyData)
    (hav : status.apollo = true)
    (hn : results.length = criteria.resultLimit) :
    (pipeline status criteria.city results findEmail enrich).length
      = criteria.resultLimit := by
  unfold pipeline
  rw [step3_length, step2_length]
  simp [step1, hav, hn]

/-- C1 witness: the amended theorem applied at the one-person scenario. -/
theorem c1_witness :
    (pipeline statusApolloOnly demoCriteria.city [personAsha]
        noFindEmail noEnrich).length = demoCriteria.resultLimit :=
  c1_length_eq_search_return demoCriteria statusApolloOnly [personAsha]
    noFindEmail noEnrich rfl (by decide)

/-- C7: with people_search unavailable the pipeline returns the empty list
whatever the other availabilities and oracles are, and neither the Hunter
enhancement step nor the Clearbit enrichment step issues any provider
call. -/
theorem c7_no_people_search (status : ApiStatus) (city : String)
    (results : List Person)
    (findEmail : String → String → String → Option String)
    (enrich : String → Option CompanyData)
    (h : status.apollo = false) :
    pipeline status city results findEmail enrich = [] ∧
    step2Calls status.hunter (step1 status.apollo city results) = [] ∧
    step3Calls status.clearbit
      (step2 status.hunter findEmail (step1 status.apollo city results)) = [] := by
  refine ⟨?_, ?_, ?_⟩ <;>
    simp [pipeline, step1, step2, step3, step2Calls, step3Calls, h]

/-- C7 witness: Hunter and Clearbit up, Apollo down. -/
theorem c7_witness :
    pipeline { hunter := true, apollo := false, clearbit := true } "Pune"
      [personAsha] noFindEmail noEnrich = [] ∧
    step2Calls true (step1 false "Pune" [personAsha]) = [] ∧
    step3Calls true (step2 true noFindEmail (step1 false "Pune" [personAsha])) = [] :=
  c7_no_people_search { hunter := true, apollo := false, clearbit := true }
    "Pune" [personAsha] noFindEmail noEnrich rfl

/-- C8: the Hunter enhancement loop modifies a contact only when its email
is empty, its company is non-empty and its name splits into at least two
whitespace-separated tokens; the Clearbit enrichment loop modifies a
contact only when its company is non-empty; and a contact with empty
company passes through both loops unmodified. -/
theorem c8_frame_conditions
    (findEmail : String → String → String → Option String)
    (enrich : String → Option CompanyData) (c : Contact) :
    (enhanceContact findEmail c ≠ c →
      c.email = "" ∧ c.company ≠ "" ∧ 2 ≤ (pySplit c.name).length) ∧
    (enrichContact enrich c ≠ c → c.company ≠ "") ∧
    (c.company = "" → enhanceContact findEmail c = c ∧ enrichContact enrich c = c) := by
  refine ⟨?_, ?_, ?_⟩
  · intro hne
    by_cases h1 : c.email = "" ∧ c.company ≠ ""
    · by_cases h2 : 2 ≤ (pySplit c.name).length
      · exact ⟨h1.1, h1.2, h2⟩
      · exact absurd (by simp [enhanceContact, h1, h2]) hne
    · exact absurd (by simp [enhanceContact, h1]) hne
  · intro hne
    by_cases h1 : c.company ≠ ""
    · exact h1
    · exact absurd (by simp [enrichContact, h1]) hne
  · intro h
    constructor
    · simp [enhanceContact, h]
    · simp [enrichContact, h]

/-- A concrete contact whose company is empty, for the frame witness. -/
def contactNoCompany : Contact :=
  { name := "Asha Rao", title := "", company := "", location := "Pune",
    linkedin_url := "", email := "", phone := "", source := "Apollo.io" }

/-- C8 witness: a contact with empty company is untouched by both loops. -/
theorem c8_witness :
    enhanceContact noFindEmail contactNoCompany = contactNoCompany ∧
    enrichContact noEnrich contactNoCompany = contactNoCompany :=
  (c8_frame_conditions noFindEmail noEnrich contactNoCompany).2.2 rfl

/-- C2: the fallback never fires. The search step always stores the
linkedin_url key (as the empty string when the provider omits the field), so
the dict.get default in the formatter is unreachable: for a person with no
LinkedIn link the formatted LinkedIn column is the empty string, not the
constructed search URL the claim requires — even though constructing that
URL would have succeeded. -/
theorem c2_code_bug :
    (pipeline statusApolloOnly "Pune" [personAsha] noFindEmail noEnrich).map
        (fun c => c.linkedin_url) = [""] ∧
    (formatContacts "2026-10-12" "Pune"
        (pipeline statusApolloOnly "Pune" [personAsha] noFindEmail noEnrich)).map
        (fun r => r.linkedin) = [""] ∧
    linkedinSearchFallback "Asha Rao" =
      "https://linkedin.com/search/results/people/?keywords=Asha%20Rao" ∧
    ("" : String) ≠ linkedinSearchFallback "Asha Rao" ∧
    linkedinSearchFallback "" =
      "https://linkedin.com/search/results/people/?keywords=" := by
  decide

/-- C3: the placeholders never appear. The search step always stores the
phone and email keys (as empty strings when uncaptured), so the dict.get
defaults Not Available in the formatter are unreachable: an uncaptured
phone or email reaches the output as the empty string, and the emails-found
metric, which counts rows differing from the placeholder, counts such a row
as having an email. -/
theorem c3_code_bug :
    (formatContacts "2026-10-12" "Pune"
        (pipeline statusApolloOnly "Pune" [personAsha] noFindEmail noEnrich)).map
        (fun r => r.phone) = [""] ∧
    (formatContacts "2026-10-12" "Pune"
        (pipeline statusApolloOnly "Pune" [personAsha] noFindEmail noEnrich)).map
        (fun r => r.email) = [""] ∧
    emailsFound (formatContacts "2026-10-12" "Pune"
        (pipeline statusApolloOnly "Pune" [personAsha] noFindEmail noEnrich)) = 1 := by
  decide

/-- C4: the synthetic generator (modelled from the spec) returns the empty
sequence for count 0 and exactly count records otherwise, each carrying the
literal synthetic as its source; it is a total function of criteria, count
and seed, with no network or credential input. -/
theorem c4_synthetic_generator (criteria : SearchCriteria) (k seed : Nat) :
    generate criteria 0 seed = [] ∧
    (generate criteria k seed).length = k ∧
    ∀ c ∈ generate criteria k seed, c.source = "synthetic" := by
  refine ⟨rfl, by simp [generate], ?_⟩
  intro c hc
  simp only [generate, List.mem_map] at hc
  obtain ⟨i, -, rfl⟩ := hc
  rfl

/-- C4 witness: the generator theorem at concrete criteria, count and
seed. -/
theorem c4_witness :
    generate demoCriteria 0 7 = [] ∧
    (generate demoCriteria 3 7).length = 3 ∧
    ∀ c ∈ generate demoCriteria 3 7, c.source = "synthetic" :=
  c4_synthetic_generator demoCriteria 3 7

/-- C5: email acceptance is monotonic in the confidence score of the
Email-Finder response: with the Hunter key present, a response whose
confidence is at most 50 never yields an email, and a response whose
confidence strictly exceeds 50 always yields exactly the email field of the
response. -/
theorem c5_confidence_threshold (d : EmailData) (c : Nat)
    (hc : d.confidence = some c) :
    (c ≤ 50 → find_email_hunter true (some d) = none) ∧
    (50 < c → find_email_hunter true (some d) = d.email) := by
  constructor
  · intro hle
    by_cases h0 : c = 0
    · simp [find_email_hunter, hc, h0]
    · have hng : ¬ (c > 50) := by omega
      simp [find_email_hunter, hc, h0, hng]
  · intro hgt
    have h0 : c ≠ 0 := by omega
    simp [find_email_hunter, hc, h0, hgt]

/-- A Hunter response at the boundary confidence 50. -/
def emailResp50 : EmailData :=
  { confidence := some 50, email := some "asha.rao@acme.com" }

/-- A Hunter response at the boundary confidence 51. -/
def emailResp51 : EmailData :=
  { confidence := some 51, email := some "asha.rao@acme.com" }

/-- C5 witness: the boundary at confidence exactly 50 versus 51. -/
theorem c5_witness :
    find_email_hunter true (some emailResp50) = none ∧
    find_email_hunter true (some emailResp51) = emailResp51.email :=
  ⟨(c5_confidence_threshold emailResp50 50 rfl).1 (by decide),
   (c5_confidence_threshold emailResp51 51 rfl).2 (by decide)⟩

/-- C6: the claim fails on the code. For a person object with no city field
the mapped contact location is the selected city of the search, not the
empty string: the location default is the only one that is not the empty
string. -/
theorem c6_counterexample :
    ({} : Person).city = none ∧
    (personToContact "Pune" ({} : Person)).location = "Pune" ∧
    (personToContact "Pune" ({} : Person)).location ≠ "" := by
  decide

/-- C6 (amended): the person-to-contact mapping is total and never yields
null: name, title, company, linkedin_url, email and phone default to the
empty string when the corresponding response fields are missing, while a
missing city defaults to the selected city of the search (a non-null
string, so downstream string operations still never fail). -/
theorem c6_mapping_defaults (p : Person) (city : String) :
    (p.first_name = none → p.last_name = none →
      (personToContact city p).name = "") ∧
    (p.title = none → (personToContact city p).title = "") ∧
    (p.organization.bind Organization.name = none →
      (personToContact city p).company = "") ∧
    (p.linkedin_url = none → (personToContact city p).linkedin_url = "") ∧
    (p.email = none → (personToContact city p).email = "") ∧
    (p.phone_numbers = none → (personToContact city p).phone = "") ∧
    (p.phone_numbers = some [] → (personToContact city p).phone = "") ∧
    (p.city = none → (personToContact city p).location = city) := by
  refine ⟨?_, ?_, ?_, ?_, ?_, ?_, ?_, ?_⟩
  · intro h1 h2
    simp only [personToContact, h1, h2, Option.getD_none]
    decide
  · intro h; simp [personToContact, h]
  · intro h
    cases ho : p.organization with
    | none => simp [personToContact, ho]
    | some o =>
      rw [ho] at h
      simp only [Option.some_bind] at h
      simp [personToContact, ho, h]
  · intro h; simp [personToContact, h]
  · intro h; simp [personToContact, h]
  · intro h; simp [personToContact, personPhone, h]
  · intro h; simp [personToContact, personPhone, h]
  · intro h; simp [personToContact, h]

/-- C6 witness: the amended theorem at the empty person object. -/
theorem c6_witness :
    (personToContact "Pune" ({} : Person)).name = "" ∧
    (personToContact "Pune" ({} : Person)).company = "" ∧
    (personToContact "Pune" ({} : Person)).location = "Pune" :=
  ⟨(c6_mapping_defaults {} "Pune").1 rfl rfl,
   (c6_mapping_defaults {} "Pune").2.2.1 rfl,
   (c6_mapping_defaults {} "Pune").2.2.2.2.2.2.2 rfl⟩

/-- C9: the health check is total (it always yields all three availability
flags, absorbing every probe failure); a probe is issued exactly when the
credential is present, so a missing credential gives availability false
with no network request; and availability is true exactly when the
credential is present and the probe came back with status 200 — hence any
transport error, timeout, or non-200 (in particular any non-2xx) status
gives false. -/
theorem c9_health_check (creds : Credentials) (probes : ProbeOutcomes) :
    ((test_api_connections creds probes).2 =
      (creds.hunter_api_key.isSome, creds.apollo_api_key.isSome,
       creds.clearbit_api_key.isSome)) ∧
    ((test_api_connections creds probes).1.hunter = true ↔
      creds.hunter_api_key.isSome = true ∧
        probes.hunter = ProbeOutcome.status 200) ∧
    ((test_api_connections creds probes).1.apollo = true ↔
      creds.apollo_api_key.isSome = true ∧
        probes.apollo = ProbeOutcome.status 200) ∧
    ((test_api_connections creds probes).1.clearbit = true ↔
      creds.clearbit_api_key.isSome = true ∧
        probes.clearbit = ProbeOutcome.status 200) := by
  refine ⟨rfl, ?_, ?_, ?_⟩
  · cases hk : creds.hunter_api_key with
    | none => simp [test_api_connections, hk]
    | some k =>
      cases hp : probes.hunter with
      | fail => simp [test_api_connections, probeAvailable, hk, hp]
      | status code => simp [test_api_connections, probeAvailable, hk, hp]
  · cases hk : creds.apollo_api_key with
    | none => simp [test_api_connections, hk]
    | some k =>
      cases hp : probes.apollo with
      | fail => simp [test_api_connections, probeAvailable, hk, hp]
      | status code => simp [test_api_connections, probeAvailable, hk, hp]
  · cases hk : creds.clearbit_api_key with
    | none => simp [test_api_connections, hk]
    | some k =>
      cases hp : probes.clearbit with
      | fail => simp [test_api_connections, probeAvailable, hk, hp]
      | status code => simp [test_api_connections, probeAvailable, hk, hp]

theorem append_marker_ne (s : String) : s ++ " + Hunter.io" ≠ s := by
  intro h
  have hl := congrArg String.length h
  rw [String.length_append] at hl
  have h12 : (" + Hunter.io" : String).length = 12 := rfl
  omega

theorem enhance_cases (f : String → String → String → Option String)
    (c : Contact) :
    enhanceContact f c = c ∨
    ((enhanceContact f c).source = c.source ++ " + Hunter.io" ∧
     (enhanceContact f c).email ≠ c.email) := by
  unfold enhanceContact
  by_cases h1 : c.email = "" ∧ c.company ≠ ""
  · rw [if_pos h1]
    by_cases h2 : 2 ≤ (pySplit c.name).length
    · rw [if_pos h2]
      cases hm : f ((pySplit c.name).headD "") ((pySplit c.name).getLastD "")
          (companyDomain c.company) with
      | none => exact Or.inl rfl
      | some e =>
        dsimp only
        by_cases he : e = ""
        · rw [if_neg (not_not_intro he)]
          exact Or.inl rfl
        · rw [if_pos he]
          refine Or.inr ⟨rfl, ?_⟩
          show e ≠ c.email
          rw [h1.1]
          exact he
    · rw [if_neg h2]; exact Or.inl rfl
  · rw [if_neg h1]; exact Or.inl rfl

theorem enrich_source (e : String → Option CompanyData) (c : Contact) :
    (enrichContact e c).source = c.source := by
  unfold enrichContact
  split
  · split <;> rfl
  · rfl

theorem step1_source (b : Bool) (city : String) (results : List Person) :
    ∀ c ∈ step1 b city results, c.source = "Apollo.io" := by
  intro c hc
  unfold step1 at hc
  split at hc
  · obtain ⟨p, -, rfl⟩ := List.mem_map.mp hc
    rfl
  · simp at hc

theorem step2_source (b : Bool) (f : String → String → String → Option String)
    (l : List Contact) (h : ∀ c ∈ l, c.source = "Apollo.io") :
    ∀ c ∈ step2 b f l,
      c.source = "Apollo.io" ∨ c.source = "Apollo.io + Hunter.io" := by
  intro c hc
  unfold step2 at hc
  split at hc
  · obtain ⟨d, hd, rfl⟩ := List.mem_map.mp hc
    rcases enhance_cases f d with he | ⟨hs, -⟩
    · rw [he]; exact Or.inl (h d hd)
    · rw [hs, h d hd]
      exact Or.inr rfl
  · exact Or.inl (h c hc)

theorem step3_source (b : Bool) (e : String → Option CompanyData)
    (l : List Contact)
    (h : ∀ c ∈ l, c.source = "Apollo.io" ∨ c.source = "Apollo.io + Hunter.io") :
    ∀ c ∈ step3 b e l,
      c.source = "Apollo.io" ∨ c.source = "Apollo.io + Hunter.io" := by
  intro c hc
  unfold step3 at hc
  split at hc
  · obtain ⟨d, hd, rfl⟩ := List.mem_map.mp hc
    rw [enrich_source]
    exact h d hd
  · exact h c hc

/-- C10: provenance. The search step initialises source to the Apollo
marker; the Hunter enhancement appends its marker exactly when it populates
the email (the two changes happen together); the Clearbit enrichment never
touches source; and every contact the pipeline returns carries either the
Apollo marker alone or the Apollo marker with the Hunter marker appended. -/
theorem c10_source_provenance (status : ApiStatus) (city : String)
    (results : List Person)
    (findEmail : String → String → String → Option String)
    (enrich : String → Option CompanyData) :
    (∀ p, (personToContact city p).source = "Apollo.io") ∧
    (∀ c, (enrichContact enrich c).source = c.source) ∧
    (∀ c, (enhanceContact findEmail c).email ≠ c.email ↔
          (enhanceContact findEmail c).source = c.source ++ " + Hunter.io") ∧
    (∀ c ∈ pipeline status city results findEmail enrich,
      c.source = "Apollo.io" ∨ c.source = "Apollo.io + Hunter.io") := by
  refine ⟨fun p => rfl, fun c => enrich_source enrich c, ?_, ?_⟩
  · intro c
    constructor
    · intro hne
      rcases enhance_cases findEmail c with he | ⟨hs, -⟩
      · exact absurd (congrArg Contact.email he) hne
      · exact hs
    · intro hs
      rcases enhance_cases findEmail c with he | ⟨-, hne⟩
      · rw [he] at hs
        exact absurd hs.symm (append_marker_ne c.source)
      · exact hne
  · exact step3_source status.clearbit enrich _
      (step2_source status.hunter findEmail _
        (step1_source status.apollo city results))

/-- C10 witness: the pipeline-membership part of the provenance theorem at
the one-person scenario. -/
theorem c10_witness :
    (personToContact "Pune" personAsha).source = "Apollo.io" ∨
    (personToContact "Pune" personAsha).source = "Apollo.io + Hunter.io" :=
  (c10_source_provenance statusApolloOnly "Pune" [personAsha] noFindEmail
      noEnrich).2.2.2 (personToContact "Pune" personAsha) (by decide)

end ContactFinder
